import Mathlib

/-!
Shallow embedding of the MPC controller node
(`src/ros/src/mpc/src/mpc_node.cpp`) and proofs about its control loop,
window extraction, local-frame transform, stabilizer and startup
validation.  Machine doubles are modelled as exact rationals; the
output `(vars[0], vars[1])` of the nonlinear solver is an oracle parameter of
the tick, since every claim quantifies over the values the solver may
return and `MPC.cpp` is an external numerical dependency.
-/

namespace MPCNode

/-- Modelled from the spec: `CENTER` is the neutral servo position constant
(typically 0.5).  The constant `CENTER_IN_DZIK` is declared in the missing
`MPC.h` header; only its use sites are in `mpc_node.cpp`. -/
def CENTER_IN_DZIK : ℚ := 1/2

/-- The `M_PI` macro constant of `math.h`, used verbatim by the RPM mapping
in `mpc_node.cpp` (line 318).  Its literal decimal expansion is embedded as
an exact rational. -/
def M_PI : ℚ := 3.14159265358979323846

/-- Result of the actuator-command part of one tick of
`MPCControllerNode::loop` (lines 203 and 301-335): the messages published on
`/commands/servo/position` and `/commands/motor/speed` during the tick, and
the values of `m_steer` / `m_rpm` after the tick. -/
structure TickOut where
  servoMsgs : List ℚ
  motorMsgs : List ℚ
  steer : ℚ
  rpm : ℚ

/-- The actuator-command path of one tick of `MPCControllerNode::loop`:
the readiness gate (line 203), the solver output extraction (lines 301-302),
the Dzik steering map and clamp (lines 307-315), the RPM map (lines
318-320), the go-flag gate (lines 323-328) and the two publishes (lines
331-335).  `solverOut` stands for `(vars[0], vars[1])` returned by
`m_controller.Solve`; `steer0` and `rpm0` are `m_steer` / `m_rpm` entering
the tick.  `w` is the `WHEEL_RADIUS_IN_DZIK` constant of the missing
`MPC.h` header, kept as a parameter. -/
def tickCommands (w : ℚ) (go pts_OK speed_OK pos_OK psi_OK : Bool)
    (solverOut : ℚ × ℚ) (steer0 rpm0 : ℚ) : TickOut :=
  if pts_OK && speed_OK && pos_OK && psi_OK then
    let steering_angle_in_radians := solverOut.1
    let speed_in_meters_by_second := solverOut.2
    let steer1 := CENTER_IN_DZIK - steering_angle_in_radians
    let steer2 : ℚ := if steer1 < 0 then 0 else if steer1 > 1 then 1 else steer1
    let rpm1 := speed_in_meters_by_second / 2 / M_PI / w * 60 * 10
    let steer3 := if go then steer2 else CENTER_IN_DZIK
    let rpm2 : ℚ := if go then rpm1 else 0
    { servoMsgs := [steer3], motorMsgs := [rpm2], steer := steer3, rpm := rpm2 }
  else
    { servoMsgs := [], motorMsgs := [], steer := steer0, rpm := rpm0 }

/-- The latency projection of `MPCControllerNode::loop` (lines 204-207):
given the math-library cosine and sine as function parameters, returns
`(pos_x_lat, pos_y_lat, psi_lat)`. -/
def latencyProjection (cosF sinF : ℚ → ℚ)
    (latency x y psi v steer lf : ℚ) : ℚ × ℚ × ℚ :=
  let psi_lat := psi - latency * (v * steer / lf)
  (x + latency * (v * cosF psi_lat), y + latency * (v * sinF psi_lat), psi_lat)

/-- The clamp of lines 309-315 written as `min`/`max`. -/
lemma clamp01_eq_min_max (q : ℚ) :
    (if q < 0 then (0 : ℚ) else if q > 1 then 1 else q) = min 1 (max 0 q) := by
  rcases lt_or_le q 0 with h | h
  · rw [if_pos h]
    rw [max_eq_left h.le, min_eq_right (by norm_num)]
  · rw [if_neg (not_lt.mpr h), max_eq_right h]
    rcases lt_or_le 1 q with h1 | h1
    · rw [if_pos h1, min_eq_left h1.le]
    · rw [if_neg (not_lt.mpr h1), min_eq_right h1]

/-- Claim C1 (amended): on every tick that publishes, the servo command is
in `[0, 1]` for every solver output, wheel radius and go flag; the motor
command is non-negative whenever the wheel radius is positive and the go
flag is false or the solver speed `vars[1]` is non-negative (a negative
solver speed with the go flag set yields a negative RPM, see the
counterexample). -/
theorem published_commands_bounded (w : ℚ) (go p s po ps : Bool)
    (delta vstar steer0 rpm0 : ℚ) :
    (∀ q ∈ (tickCommands w go p s po ps (delta, vstar) steer0 rpm0).servoMsgs,
        0 ≤ q ∧ q ≤ 1) ∧
    (0 < w → (go = false ∨ 0 ≤ vstar) →
      ∀ q ∈ (tickCommands w go p s po ps (delta, vstar) steer0 rpm0).motorMsgs,
        0 ≤ q) := by
  unfold tickCommands
  cases hflag : (p && s && po && ps)
  · simp
  · rw [if_pos rfl]
    simp only [List.mem_singleton, forall_eq]
    refine ⟨?_, ?_⟩
    · cases go
      · rw [if_neg (by simp)]
        unfold CENTER_IN_DZIK
        norm_num
      · rw [if_pos rfl, clamp01_eq_min_max]
        exact ⟨le_min (by norm_num) (le_max_left 0 _), min_le_left 1 _⟩
    · intro hw hv
      cases go
      · rw [if_neg (by simp)]
      · rw [if_pos rfl]
        have hv2 : 0 ≤ vstar := by
          rcases hv with hv | hv
          · exact absurd hv (by simp)
          · exact hv
        have hpi : (0 : ℚ) < M_PI := by unfold M_PI; norm_num
        have h1 : (0 : ℚ) ≤ vstar / 2 / M_PI / w :=
          div_nonneg (div_nonneg (div_nonneg hv2 (by norm_num)) hpi.le) hw.le
        have h2 : (0 : ℚ) ≤ vstar / 2 / M_PI / w * 60 :=
          mul_nonneg h1 (by norm_num)
        exact mul_nonneg h2 (by norm_num)

/-- Claim C1 witness: the bound theorem applied at a concrete tick, the
steer bound also at a tick with the go flag set and a negative solver
speed. -/
theorem published_commands_bounded_witness :
    (∀ q ∈ (tickCommands 1 true true true true true (0, -3) 0 0).servoMsgs,
        0 ≤ q ∧ q ≤ 1) ∧
    (∀ q ∈ (tickCommands 1 true true true true true (0, 2) 0 0).servoMsgs,
        0 ≤ q ∧ q ≤ 1) ∧
    ((0 : ℚ) < 1 ∧ (true = false ∨ (0 : ℚ) ≤ 2)) ∧
    (∀ q ∈ (tickCommands 1 true true true true true (0, 2) 0 0).motorMsgs,
        0 ≤ q) :=
  ⟨(published_commands_bounded 1 true true true true true 0 (-3) 0 0).1,
   (published_commands_bounded 1 true true true true true 0 2 0 0).1,
   ⟨by norm_num, Or.inr (by norm_num)⟩,
   (published_commands_bounded 1 true true true true true 0 2 0 0).2
     (by norm_num) (Or.inr (by norm_num))⟩

/-- Claim C1 counterexample: with the go flag set and the solver returning
speed `-1`, the published motor command is negative, refuting the claim
that the published rpm command is non-negative for every value the solver
may return. -/
theorem negative_solver_speed_negative_rpm :
    ((tickCommands 1 true true true true true (0, -1) 0 0).motorMsgs).length = 1 ∧
    ((tickCommands 1 true true true true true (0, -1) 0 0).motorMsgs).getD 0 0 < 0 := by
  constructor
  · rfl
  · unfold tickCommands CENTER_IN_DZIK M_PI
    norm_num

/-- Claim C2 counterexample: on a tick skipped because the centerline flag
is false, the loop publishes zero messages on both actuator topics -- not
the safe-stop pair `(CENTER, 0)` once. -/
theorem skip_tick_publishes_nothing_cex :
    ((tickCommands 1 true false true true true (0, 0) (1/2) 0).servoMsgs).length = 0 ∧
    ((tickCommands 1 true false true true true (0, 0) (1/2) 0).motorMsgs).length = 0 := by
  constructor <;> rfl

/-- Claim C2 (amended): on every tick skipped because at least one of the
four input-readiness flags is false, the loop publishes nothing at all (no
servo message and no motor message); the safe-stop pair is not emitted. -/
theorem skip_tick_publishes_nothing (w : ℚ) (go p s po ps : Bool)
    (solverOut : ℚ × ℚ) (steer0 rpm0 : ℚ)
    (h : p = false ∨ s = false ∨ po = false ∨ ps = false) :
    (tickCommands w go p s po ps solverOut steer0 rpm0).servoMsgs = [] ∧
    (tickCommands w go p s po ps solverOut steer0 rpm0).motorMsgs = [] := by
  unfold tickCommands
  have hflag : (p && s && po && ps) = false := by
    rcases h with h | h | h | h <;> rw [h] <;> simp
  rw [hflag]
  exact ⟨rfl, rfl⟩

/-- Claim C2 witness: the skipped tick with the centerline flag false
publishes nothing. -/
theorem skip_tick_publishes_nothing_witness :
    (false = false ∨ true = false ∨ true = false ∨ true = false) ∧
    ((tickCommands 1 true false true true true (0, 0) 0 0).servoMsgs = [] ∧
     (tickCommands 1 true false true true true (0, 0) 0 0).motorMsgs = []) :=
  ⟨Or.inl rfl,
   skip_tick_publishes_nothing 1 true false true true true (0, 0) 0 0 (Or.inl rfl)⟩

/-- Claim C6: with all inputs ready and the go flag false at tick start,
the published pair is exactly `(CENTER, 0)` regardless of the solver
output; with the go flag true, both computed commands (the post-clamp
`m_steer` and `m_rpm`) are published, one message each. -/
theorem go_gating (w delta vstar steer0 rpm0 : ℚ) :
    ((tickCommands w false true true true true (delta, vstar) steer0 rpm0).servoMsgs
        = [CENTER_IN_DZIK] ∧
     (tickCommands w false true true true true (delta, vstar) steer0 rpm0).motorMsgs
        = [0]) ∧
    ((tickCommands w true true true true true (delta, vstar) steer0 rpm0).servoMsgs
        = [(tickCommands w true true true true true (delta, vstar) steer0 rpm0).steer] ∧
     (tickCommands w true true true true true (delta, vstar) steer0 rpm0).motorMsgs
        = [(tickCommands w true true true true true (delta, vstar) steer0 rpm0).rpm]) := by
  unfold tickCommands
  simp

/-- Claim C3 counterexample: on a tick whose solver returned the raw
steering angle `delta = 0` with the go flag set, the value recorded in
`m_steer` is the servo command `CENTER - 0 = 1/2`, not the raw angle `0`;
the next latency projection therefore computes `psi_lat = -1/2` (with
`psi = 0`, `latency = v = Lf = 1`), while the claimed recurrence with
`delta_last = delta = 0` gives `psi_lat = 0`. -/
theorem delta_last_not_raw_angle :
    (tickCommands 1 true true true true true (0, 5) 0 0).steer = 1/2 ∧
    (latencyProjection (fun t => t) (fun t => t) 1 0 0 0 1
        ((tickCommands 1 true true true true true (0, 5) 0 0).steer) 1).2.2 = -(1/2) ∧
    (latencyProjection (fun t => t) (fun t => t) 1 0 0 0 1 0 1).2.2 = 0 := by
  have h1 : (tickCommands 1 true true true true true (0, 5) 0 0).steer = 1/2 := by
    show (if CENTER_IN_DZIK - (0 : ℚ) < 0 then (0 : ℚ)
          else if CENTER_IN_DZIK - (0 : ℚ) > 1 then 1
          else CENTER_IN_DZIK - (0 : ℚ)) = 1/2
    norm_num [CENTER_IN_DZIK]
  refine ⟨h1, ?_, ?_⟩
  · rw [h1]
    show (0 : ℚ) - 1 * (1 * (1/2) / 1) = -(1/2)
    norm_num
  · show (0 : ℚ) - 1 * (1 * 0 / 1) = 0
    norm_num

/-- Claim C3 (amended): on every tick, the latency-projected pose is
computed as `psi_lat = psi - latency*(v*delta_last/Lf)`,
`x_lat = x + latency*v*cos(psi_lat)`, `y_lat = y + latency*v*sin(psi_lat)`,
where `delta_last` is the steering command recorded at the end of the
previous publishing tick -- the published servo value
`clamp_[0,1](CENTER - delta)` when the go flag was true, and `CENTER`
when it was false -- not the raw steering angle in radians. -/
theorem delta_last_is_published_steer (cosF sinF : ℚ → ℚ)
    (tau x y psi v lf w : ℚ) (go : Bool) (delta vstar steer0 rpm0 : ℚ) :
    (tickCommands w go true true true true (delta, vstar) steer0 rpm0).servoMsgs
      = [(tickCommands w go true true true true (delta, vstar) steer0 rpm0).steer] ∧
    (tickCommands w go true true true true (delta, vstar) steer0 rpm0).steer
      = (if go then min 1 (max 0 (CENTER_IN_DZIK - delta)) else CENTER_IN_DZIK) ∧
    latencyProjection cosF sinF tau x y psi v
        ((tickCommands w go true true true true (delta, vstar) steer0 rpm0).steer) lf
      = (x + tau * (v * cosF (psi - tau * (v *
            ((tickCommands w go true true true true (delta, vstar) steer0 rpm0).steer) / lf))),
         y + tau * (v * sinF (psi - tau * (v *
            ((tickCommands w go true true true true (delta, vstar) steer0 rpm0).steer) / lf))),
         psi - tau * (v *
            ((tickCommands w go true true true true (delta, vstar) steer0 rpm0).steer) / lf)) := by
  refine ⟨rfl, ?_, rfl⟩
  show (if go = true then
          (if CENTER_IN_DZIK - delta < 0 then (0 : ℚ)
           else if CENTER_IN_DZIK - delta > 1 then 1 else CENTER_IN_DZIK - delta)
        else CENTER_IN_DZIK)
      = (if go = true then min 1 (max 0 (CENTER_IN_DZIK - delta)) else CENTER_IN_DZIK)
  cases go
  · rfl
  · show (if CENTER_IN_DZIK - delta < 0 then (0 : ℚ)
          else if CENTER_IN_DZIK - delta > 1 then 1 else CENTER_IN_DZIK - delta)
        = min 1 (max 0 (CENTER_IN_DZIK - delta))
    exact clamp01_eq_min_max _

/-- The smoothed reference velocity of `MPCControllerNode::loop`
(line 270): `m_ref_v_alpha * m_ref_v + (1 - m_ref_v_alpha) *
(fraction_steps_OK * m_ref_v)`. -/
def new_ref_v (ref_v_alpha ref_v fraction_steps_OK : ℚ) : ℚ :=
  ref_v_alpha * ref_v + (1 - ref_v_alpha) * (fraction_steps_OK * ref_v)

/-- Claim C8: the smoothed reference velocity
`new_ref_v = alpha*ref_v + (1-alpha)*(fraction_steps_OK*ref_v)` satisfies
`new_ref_v <= ref_v` for every `alpha` in `[0,1]`, `ref_v > 0` and
`fraction_steps_OK < 1`. -/
theorem new_ref_v_le_ref_v (alpha r f : ℚ)
    (_h0 : 0 ≤ alpha) (h1 : alpha ≤ 1) (hr : 0 < r) (hf : f < 1) :
    new_ref_v alpha r f ≤ r := by
  unfold new_ref_v
  nlinarith [mul_nonneg (mul_nonneg (sub_nonneg.mpr h1) (sub_pos.mpr hf).le) hr.le]

/-- Claim C8 witness: the attenuation bound at a concrete tick. -/
theorem new_ref_v_le_ref_v_witness :
    ((0 : ℚ) ≤ 1/2 ∧ (1/2 : ℚ) ≤ 1 ∧ (0 : ℚ) < 4 ∧ (1/2 : ℚ) < 1) ∧
    new_ref_v (1/2) 4 (1/2) ≤ 4 :=
  ⟨⟨by norm_num, by norm_num, by norm_num, by norm_num⟩,
   new_ref_v_le_ref_v (1/2) 4 (1/2) (by norm_num) (by norm_num) (by norm_num)
     (by norm_num)⟩

/-- The map-to-car-frame transform of `MPCControllerNode::loop`
(lines 236-242): translate by the projected pose, then rotate; `c` and `s`
are `cos_psi_lat` and `sin_psi_lat`. -/
def carFramePoint (c s xp yp X Y : ℚ) : ℚ × ℚ :=
  ((X - xp) * c + (Y - yp) * s, -(X - xp) * s + (Y - yp) * c)

/-- The inverse transform used in `MPCControllerNode::get_marker`
(lines 162-172): rotate a car-frame point back and translate by the
projected pose. -/
def markerPoint (c s xp yp x y : ℚ) : ℚ × ℚ :=
  (x * c - y * s + xp, x * s + y * c + yp)

/-- Claim C9: the map-to-car transform is inverted by the marker
transform: for every pose and point, and every exact cosine/sine pair
(`c^2 + s^2 = 1`), composing `carFramePoint` with `markerPoint` reproduces
the original map-frame point. -/
theorem frame_transform_roundtrip (c s xp yp X Y : ℚ) (h : c^2 + s^2 = 1) :
    markerPoint c s xp yp (carFramePoint c s xp yp X Y).1
      (carFramePoint c s xp yp X Y).2 = (X, Y) := by
  unfold markerPoint carFramePoint
  refine Prod.ext ?_ ?_
  · show ((X - xp) * c + (Y - yp) * s) * c - (-(X - xp) * s + (Y - yp) * c) * s + xp = X
    linear_combination (X - xp) * h
  · show ((X - xp) * c + (Y - yp) * s) * s + (-(X - xp) * s + (Y - yp) * c) * c + yp = Y
    linear_combination (Y - yp) * h

/-- Claim C9 witness: the round trip at the exact rotation
`(c, s) = (3/5, 4/5)` and a concrete pose and point. -/
theorem frame_transform_roundtrip_witness :
    ((3/5 : ℚ)^2 + (4/5 : ℚ)^2 = 1) ∧
    markerPoint (3/5) (4/5) 1 2 (carFramePoint (3/5) (4/5) 1 2 7 9).1
      (carFramePoint (3/5) (4/5) 1 2 7 9).2 = (7, 9) :=
  ⟨by norm_num, frame_transform_roundtrip (3/5) (4/5) 1 2 7 9 (by norm_num)⟩

/-- Helper for `find_closest`: linear scan carrying the current best index
and best squared distance (`mpc_node.cpp` lines 391-399). -/
def find_closest_aux (pos_x pos_y : ℚ) :
    List (ℚ × ℚ) → ℕ → Int → ℚ → Int
  | [], _, best_idx, _ => best_idx
  | (x, y) :: rest, i, best_idx, best_dist =>
    let diff_x := x - pos_x
    let diff_y := y - pos_y
    let dist := diff_x * diff_x + diff_y * diff_y
    if dist < best_dist then find_closest_aux pos_x pos_y rest (i + 1) (i : Int) dist
    else find_closest_aux pos_x pos_y rest (i + 1) best_idx best_dist

/-- `MPCControllerNode::find_closest` (lines 388-401): index of the
centerline point with the least squared distance to the pose; `-1` and
`1.0e19` are the initial best index and distance. -/
def find_closest (pts_x pts_y : List ℚ) (pos_x pos_y : ℚ) : Int :=
  find_closest_aux pos_x pos_y (pts_x.zip pts_y) 0 (-1) ((10 : ℚ)^19)

/-- The modulus of the 64-bit `size_t` arithmetic performed by the window
index expression of `mpc_node.cpp` line 220. -/
def SIZE_T_MOD : ℕ := 2 ^ 64

/-- Conversion of a C++ `int` value to `size_t` (reduction modulo `2^64`),
as performed by the usual arithmetic conversions in
`closest_idx + i*STEP_POLY` where `i` has type `size_t`. -/
def toSizeT (z : Int) : ℕ := (z % (SIZE_T_MOD : Int)).toNat

/-- The window index expression of `mpc_node.cpp` line 220,
`(closest_idx + i*STEP_POLY) % m_pts_x.size()`, with C++ semantics: the
`int` operand is converted to `size_t`, the sum is taken modulo `2^64`,
and the result is reduced modulo the centerline length `N`. -/
def windowIdxCode (closest_idx : Int) (i step N : ℕ) : ℕ :=
  ((toSizeT closest_idx + i * step) % SIZE_T_MOD) % N

/-- Claim C4 evaluation: with a 10-point centerline, pose at the first
point, `NUM_STEPS_BACK = 1` and `STEP_POLY = 1`, the start index of the
loop is `closest_idx = 0 - 1 = -1`; at `i = 0` the unsigned arithmetic
yields centerline index `(2^64 - 1) mod 10 = 5`, while the mathematical
modulo of the claim yields `(-1) mod 10 = 9`: the negative index does not
wrap around the polyline but lands on an unrelated point. -/
theorem window_index_unsigned_wrap_bug :
    find_closest [0, 1, 2, 3, 4, 5, 6, 7, 8, 9]
        [0, 0, 0, 0, 0, 0, 0, 0, 0, 0] 0 0 = 0 ∧
    windowIdxCode (0 - 1) 0 1 10 = 5 ∧
    (((0 - 1 : Int)) % 10).toNat = 9 ∧
    windowIdxCode (0 - 1) 0 1 10 ≠ (((0 - 1 : Int)) % 10).toNat := by
  refine ⟨?_, by decide, by decide, by decide⟩
  norm_num [find_closest, find_closest_aux]

/-- The centerline-slot state of `MPCControllerNode`: the point lists
`m_pts_x` / `m_pts_y` and the readiness flag `m_pts_OK`. -/
structure CenterlineState where
  pts_x : List ℚ
  pts_y : List ℚ
  pts_OK : Bool

/-- `MPCControllerNode::centerline_cb` (lines 98-112): copies the received
points into `m_pts_x` / `m_pts_y` and sets `m_pts_OK = true`
unconditionally, with no check that the polyline is non-empty. -/
def centerline_cb (data : List (ℚ × ℚ)) (_st : CenterlineState) : CenterlineState :=
  { pts_x := data.map Prod.fst, pts_y := data.map Prod.snd, pts_OK := true }

/-- The window extraction loop of `mpc_node.cpp` lines 219-223 on one
coordinate list, as a fallible operation: when the centerline is empty the
index expression divides by zero (`% 0` is undefined behaviour in C++),
modelled as `none`; otherwise every computed index is in range and the
selected points are returned. -/
def windowExtract (pts : List ℚ) (closest_idx : Int) (num_steps_poly step : ℕ) :
    Option (List ℚ) :=
  if pts.length = 0 then none
  else some ((List.range num_steps_poly).map
    (fun i => pts.getD (windowIdxCode closest_idx i step pts.length) 0))

/-- Claim C10: the centerline callback sets the readiness flag even for an
empty polyline, and the window extraction succeeds exactly on non-empty
centerlines -- so its failure branch is unreachable precisely under the
precondition that every delivered centerline is non-empty. -/
theorem empty_centerline_accepted_window_guard :
    (∀ st : CenterlineState, (centerline_cb [] st).pts_OK = true) ∧
    (∀ (pts : List ℚ) (closest_idx : Int) (n step : ℕ),
      (windowExtract pts closest_idx n step).isSome ↔ pts ≠ []) := by
  constructor
  · intro st
    rfl
  · intro pts closest_idx n step
    unfold windowExtract
    rcases h : pts.length with _ | k
    · rw [if_pos rfl]
      simp [List.length_eq_zero.mp h]
    · rw [if_neg (by omega)]
      simp only [Option.isSome_some, true_iff]
      intro hnil
      rw [hnil] at h
      exact absurd h (by simp)

/-- The command-line configuration record parsed in `main`
(`mpc_node.cpp` lines 409-440). -/
structure Args where
  steps_ahead : Int
  dt : ℚ
  ref_v : ℚ
  ref_v_alpha : ℚ
  latency : ℚ
  cte_coeff : ℚ
  epsi_coeff : ℚ
  speed_coeff : ℚ
  steer_coeff : ℚ
  consec_steer_coeff : ℚ
  consec_speed_coeff : ℚ
  poly_degree : Int
  num_steps_poly : Int
  debug : String

/-- The startup validation of `main` (`mpc_node.cpp` lines 405-460):
returns `true` exactly when the program exits with code 1 before entering
the loop.  With `argc = 15` the only checks are `ref_v_alpha` outside
`[0, 1]` and a `debug` string other than `"true"` / `"false"`; any other
argument count exits with code 1. -/
def startupFails (argc : Int) (a : Args) : Bool :=
  if argc = 15 then
    if a.ref_v_alpha > 1 ∨ a.ref_v_alpha < 0 then true
    else if a.debug = "true" then false
    else if a.debug = "false" then false
    else true
  else true

/-- A configuration violating the table constraints `dt > 0`,
`poly_degree <= num_steps_poly - 1` and `num_steps_poly >= poly_degree + 2`
while keeping `ref_v_alpha` in range and `debug` boolean. -/
def badDtArgs : Args :=
  { steps_ahead := 10, dt := -1, ref_v := 5, ref_v_alpha := 1/2,
    latency := 0, cte_coeff := 1, epsi_coeff := 1, speed_coeff := 1,
    steer_coeff := 1, consec_steer_coeff := 1, consec_speed_coeff := 1,
    poly_degree := 3, num_steps_poly := 2, debug := "true" }

/-- Claim C7 counterexample: a configuration with `dt = -1 <= 0` (also
violating the polynomial-size constraints) passes startup validation --
the program does not exit with code 1. -/
theorem startup_accepts_invalid_dt :
    badDtArgs.dt ≤ 0 ∧ badDtArgs.num_steps_poly < badDtArgs.poly_degree + 2 ∧
    startupFails 15 badDtArgs = false := by
  refine ⟨by norm_num [badDtArgs], by norm_num [badDtArgs], ?_⟩
  norm_num [startupFails, badDtArgs]

/-- Claim C7 (amended): startup fails with exit code 1 exactly when the
argument count differs from the expected one, `ref_v_alpha` lies outside
`[0, 1]`, or `debug` is neither `"true"` nor `"false"`; the remaining
table constraints (`steps_ahead`, `dt`, `ref_v`, `latency`, the cost
coefficients, `poly_degree`, `num_steps_poly`) are not validated. -/
theorem startup_validation_exact (argc : Int) (a : Args) :
    startupFails argc a = true ↔
      (argc ≠ 15 ∨ 1 < a.ref_v_alpha ∨ a.ref_v_alpha < 0 ∨
        (a.debug ≠ "true" ∧ a.debug ≠ "false")) := by
  unfold startupFails
  split_ifs with h1 h2 h3 h4 <;> simp_all
  tauto

/-- The transform-and-stabilize loop of `MPCControllerNode::loop`
(lines 236-268).  Each window point is translated by the projected pose
and rotated into the car frame (lines 237-242); from index
`i > poly_degree` on, if the car-frame x advance since the previous point
is below `X_DELTA_MIN_VALUE` (`xmin`), the remaining points are replaced
by `num_steps_remaining - 1` synthetic points extrapolated linearly from
the last two accepted points and the loop breaks, recording
`fraction_steps_OK = (i+1)/num_steps_poly` (lines 244-263).  The
accumulators `rx` / `ry` hold the accepted car-frame values in reverse;
the result is `(xvals_vec, yvals_vec, fraction_steps_OK)`. -/
def stabGo (poly_degree : ℕ) (xmin : ℚ) (num_steps_poly : ℕ) (c s xp yp : ℚ) :
    List (ℚ × ℚ) → ℕ → List ℚ → List ℚ → List ℚ × List ℚ × ℚ
  | [], _, rx, ry => (rx.reverse, ry.reverse, 1)
  | (X, Y) :: rest, i, rx, ry =>
    let dx := X - xp
    let dy := Y - yp
    let x_rot := dx * c + dy * s
    let y_rot := -dx * s + dy * c
    if poly_degree < i ∧ x_rot - rx.headD 0 < xmin then
      let num_steps_remaining := num_steps_poly - i + 1
      let delta_x := (rx.headD 0 - rx.tail.headD 0) / (num_steps_remaining : ℚ)
      let delta_y := (ry.headD 0 - ry.tail.headD 0) / (num_steps_remaining : ℚ)
      (rx.reverse ++ (List.range (num_steps_remaining - 1)).map
          (fun sub_i => rx.headD 0 + ((sub_i + 1 : ℕ) : ℚ) * delta_x),
       ry.reverse ++ (List.range (num_steps_remaining - 1)).map
          (fun sub_i => ry.headD 0 + ((sub_i + 1 : ℕ) : ℚ) * delta_y),
       ((i + 1 : ℕ) : ℚ) / (num_steps_poly : ℚ))
    else
      stabGo poly_degree xmin num_steps_poly c s xp yp rest (i + 1)
        (x_rot :: rx) (y_rot :: ry)

/-- The full transform-and-stabilize pass over a window, started with
empty accumulators at index 0, as in `mpc_node.cpp` lines 227-268. -/
def transformAndStabilize (poly_degree : ℕ) (xmin : ℚ) (num_steps_poly : ℕ)
    (c s xp yp : ℚ) (window : List (ℚ × ℚ)) : List ℚ × List ℚ × ℚ :=
  stabGo poly_degree xmin num_steps_poly c s xp yp window 0 [] []

/-- The spacing predicate checked by the stabilizer: walking the list from
position `i` with previous value `prev`, every element at a position
greater than `poly_degree` advances on its predecessor by at least
`xmin`. -/
def chainOK (poly_degree : ℕ) (xmin : ℚ) : ℚ → ℕ → List ℚ → Bool
  | _, _, [] => true
  | prev, i, x :: rest =>
    (if poly_degree < i then decide (xmin ≤ x - prev) else true)
      && chainOK poly_degree xmin x (i + 1) rest

/-- When every remaining rotated x value advances by at least `xmin`, the
stabilizer never breaks: it returns exactly the rotated window points and
`fraction_steps_OK = 1`. -/
lemma stabGo_pass (d : ℕ) (xmin : ℚ) (n : ℕ) (c s xp yp : ℚ) :
    ∀ (rest : List (ℚ × ℚ)) (i : ℕ) (rx ry : List ℚ),
      chainOK d xmin (rx.headD 0) i
        (rest.map (fun p => (p.1 - xp) * c + (p.2 - yp) * s)) = true →
      stabGo d xmin n c s xp yp rest i rx ry =
        (rx.reverse ++ rest.map (fun p => (p.1 - xp) * c + (p.2 - yp) * s),
         ry.reverse ++ rest.map (fun p => -(p.1 - xp) * s + (p.2 - yp) * c),
         1) := by
  intro rest
  induction rest with
  | nil =>
    intro i rx ry _
    simp [stabGo]
  | cons p rest ih =>
    intro i rx ry h
    obtain ⟨X, Y⟩ := p
    simp only [List.map_cons] at h
    simp only [chainOK, Bool.and_eq_true] at h
    obtain ⟨h1, h2⟩ := h
    simp only [stabGo]
    rw [if_neg ?hcond]
    case hcond =>
      rintro ⟨ha, hb⟩
      rw [if_pos ha] at h1
      rw [decide_eq_true_eq] at h1
      linarith
    rw [ih (i + 1) (((X - xp) * c + (Y - yp) * s) :: rx)
          ((-(X - xp) * s + (Y - yp) * c) :: ry) (by simpa using h2)]
    simp [List.reverse_cons, List.append_assoc]

/-- The spacing predicate implies the claimed pairwise lower bound on
consecutive differences. -/
lemma chainOK_spacing (d : ℕ) (xmin : ℚ) :
    ∀ (xs : List ℚ) (prev : ℚ) (i0 : ℕ),
      chainOK d xmin prev i0 xs = true →
      ∀ j, j + 1 < xs.length → d < i0 + j + 1 →
        xmin ≤ xs.getD (j + 1) 0 - xs.getD j 0 := by
  intro xs
  induction xs with
  | nil =>
    intro prev i0 _ j hj
    simp at hj
  | cons x rest ih =>
    intro prev i0 h j hj hd
    simp only [chainOK, Bool.and_eq_true] at h
    obtain ⟨_h1, h2⟩ := h
    cases j with
    | zero =>
      cases rest with
      | nil => simp at hj
      | cons y rest2 =>
        simp only [chainOK, Bool.and_eq_true] at h2
        obtain ⟨h21, _⟩ := h2
        rw [if_pos (show d < i0 + 1 by omega)] at h21
        rw [decide_eq_true_eq] at h21
        simpa using h21
    | succ k =>
      have hk := ih x (i0 + 1) h2 k (by simpa using hj) (by omega)
      simpa using hk

/-- Claim C5 counterexample: with `poly_degree = 1`, `X_DELTA_MIN = 1`,
`num_steps_poly = 5`, identity pose and window x values
`0, 2/5, 2/5, 9, 9`, the stabilizer breaks at `i = 2` and fills the tail
with synthetic points of uniform spacing `(2/5 - 0)/4 = 1/10`; the
resulting sequence `0, 2/5, 1/2, 3/5, 7/10` violates the claimed
invariant at `i = 2 > poly_degree`, where the advance `1/10` is below
`X_DELTA_MIN = 1`. -/
theorem stabilizer_tail_spacing_violation :
    (transformAndStabilize 1 1 5 1 0 0 0
        [(0, 0), (2/5, 0), (2/5, 0), (9, 9), (9, 9)]).1
      = [0, 2/5, 1/2, 3/5, 7/10] ∧
    ¬((2 : ℕ) ≤ 1) ∧
    (transformAndStabilize 1 1 5 1 0 0 0
        [(0, 0), (2/5, 0), (2/5, 0), (9, 9), (9, 9)]).1.getD 2 0
      - (transformAndStabilize 1 1 5 1 0 0 0
        [(0, 0), (2/5, 0), (2/5, 0), (9, 9), (9, 9)]).1.getD 1 0 < 1 := by
  have hout : (transformAndStabilize 1 1 5 1 0 0 0
      [(0, 0), (2/5, 0), (2/5, 0), (9, 9), (9, 9)]).1
      = [0, 2/5, 1/2, 3/5, 7/10] := by
    norm_num [transformAndStabilize, stabGo, List.range_succ]
  refine ⟨hout, by norm_num, ?_⟩
  rw [hout]
  norm_num

/-- Claim C5 (amended): when the transformed window already satisfies the
spacing bound at every index above `poly_degree`, the stabilizer is the
identity on the rotated points (no synthetic tail, `fraction_steps_OK =
1`) and the x sequence passed to polyfit satisfies the claimed invariant;
when the stabilizer does append a synthetic tail, the uniform tail
spacing is the last accepted advance divided by `num_steps_remaining` and
may fall below `X_DELTA_MIN` (see the counterexample). -/
theorem stabilizer_passthrough_spacing (d : ℕ) (xmin : ℚ) (n : ℕ)
    (c s xp yp : ℚ) (window : List (ℚ × ℚ))
    (h : chainOK d xmin 0 0
      (window.map (fun p => (p.1 - xp) * c + (p.2 - yp) * s)) = true) :
    transformAndStabilize d xmin n c s xp yp window =
      (window.map (fun p => (p.1 - xp) * c + (p.2 - yp) * s),
       window.map (fun p => -(p.1 - xp) * s + (p.2 - yp) * c), 1) ∧
    ∀ j, j + 1 < (transformAndStabilize d xmin n c s xp yp window).1.length →
      d < j + 1 →
      xmin ≤ (transformAndStabilize d xmin n c s xp yp window).1.getD (j + 1) 0
        - (transformAndStabilize d xmin n c s xp yp window).1.getD j 0 := by
  have hpass := stabGo_pass d xmin n c s xp yp window 0 [] [] (by simpa using h)
  constructor
  · unfold transformAndStabilize
    simpa using hpass
  · intro j hj hd
    unfold transformAndStabilize at hj ⊢
    rw [hpass] at hj ⊢
    simp only [List.reverse_nil, List.nil_append] at hj ⊢
    exact chainOK_spacing d xmin _ 0 0 h j (by simpa using hj) (by omega)

/-- Claim C5 witness: the pass-through theorem applied to a concrete
window with good spacing. -/
theorem stabilizer_passthrough_spacing_witness :
    (chainOK 1 1 0 0 ([(0, 0), (5, 1), (10, 2)].map
        (fun p => (p.1 - 0) * 1 + (p.2 - 0) * 0)) = true) ∧
    (transformAndStabilize 1 1 3 1 0 0 0 [(0, 0), (5, 1), (10, 2)] =
      ([(0, 0), (5, 1), (10, 2)].map (fun p => (p.1 - 0) * 1 + (p.2 - 0) * 0),
       [(0, 0), (5, 1), (10, 2)].map (fun p => -(p.1 - 0) * 0 + (p.2 - 0) * 1),
       1) ∧
     ∀ j, j + 1 < (transformAndStabilize 1 1 3 1 0 0 0
          [(0, 0), (5, 1), (10, 2)]).1.length →
       1 < j + 1 →
       (1 : ℚ) ≤ (transformAndStabilize 1 1 3 1 0 0 0
            [(0, 0), (5, 1), (10, 2)]).1.getD (j + 1) 0
         - (transformAndStabilize 1 1 3 1 0 0 0
            [(0, 0), (5, 1), (10, 2)]).1.getD j 0) :=
  ⟨by norm_num [chainOK], stabilizer_passthrough_spacing 1 1 3 1 0 0 0
      [(0, 0), (5, 1), (10, 2)] (by norm_num [chainOK])⟩

end MPCNode
